import Mathlib

/-!
# Shallow embedding of the Red Light Green Light VS Code extension core

This file embeds the phase-timing core of the extension in Lean 4:

* `src/src/game/timer-manager.ts` — `TimerManager` (countdown timer with
  fixed or random duration selection),
* `src/src/game/game-engine.ts` — `GameEngine` (the Stopped/Red/Green state
  machine and its `GameStateChangeEvent` emission),
* `src/src/views/game-panel-provider.ts` — `InputMonitor` (grace-period
  bookkeeping and violation detection on text-document changes),
* the `SettingsManager.validateSettingsObject` routine from the settings
  manager source.

The engine and its timer are mutually re-entrant in the source (the engine
calls `startTimer`, the timer calls the engine's tick/complete callbacks),
so both are embedded as one combined state record `SysState`; each method
becomes a pure function from state (plus the inputs the host supplies:
the current wall-clock time `now` in milliseconds, and the `Math.random()`
draw `r`) to the new state together with the list of events it emits, in
emission order.  JavaScript `number`s that only ever hold integers
(durations, timestamps) are Lean `Int`/`Nat`; values that are genuinely
fractional (grace period in seconds, sound volume, random draws) are `ℚ`.
-/

/-- `GameState` enum from `game-types.ts`. -/
inductive GameState
  | Stopped
  | RedLight
  | GreenLight
deriving DecidableEq, Repr

/-- `TimerMode` enum from `timer-manager.ts`. -/
inductive TimerMode
  | RedLight
  | GreenLight
deriving DecidableEq, Repr

/-- `TimerConfig` from `game-types.ts` (all durations in whole seconds). -/
structure TimerConfig where
  redLightDuration : Int
  greenLightDuration : Int
  useRandomTiming : Bool
  maxRandomTime : Int
  minRandomTime : Int
deriving DecidableEq, Repr

/-- `GameConfig` from `game-types.ts`; `redLightAction` is kept as the raw
string (`"close"` or `"warn"`), `gracePeriod` is seconds, possibly
fractional. -/
structure GameConfig where
  timerConfig : TimerConfig
  redLightAction : String
  gracePeriod : ℚ
  showTimer : Bool
  enableSounds : Bool
deriving DecidableEq, Repr

/-- `GameStateChangeEvent` from `game-types.ts`; `timestamp` is the
`Date.now()` value in milliseconds. -/
structure GameStateChangeEvent where
  previousState : GameState
  currentState : GameState
  timestamp : Nat
  remainingTime : Int
deriving DecidableEq, Repr

/-- Combined state of one `GameEngine` and the `TimerManager` it owns.
`tickIntervalActive` models whether the `setInterval` handle
(`tickInterval`) is live. -/
structure SysState where
  currentState : GameState
  sessionStartTime : Nat
  config : GameConfig
  timerMode : Option TimerMode
  remainingTime : Int
  tickIntervalActive : Bool
deriving DecidableEq, Repr

/-- `TimerManager.getRandomDuration`:
`Math.floor(Math.random() * (max - min + 1)) + min`, with the
`Math.random()` draw `r ∈ [0, 1)` made explicit. -/
def getRandomDuration (config : TimerConfig) (r : ℚ) : Int :=
  ⌊r * ((config.maxRandomTime : ℚ) - (config.minRandomTime : ℚ) + 1)⌋ +
    config.minRandomTime

/-- `TimerManager.getDurationForMode`. -/
def getDurationForMode (config : TimerConfig) (mode : TimerMode) (r : ℚ) : Int :=
  if config.useRandomTiming then
    getRandomDuration config r
  else
    match mode with
    | TimerMode.RedLight => config.redLightDuration
    | TimerMode.GreenLight => config.greenLightDuration

/-- `TimerManager.cleanup`: clears the tick interval (the `currentTimer`
field of the source is never assigned a timeout, so only the interval
matters). -/
def timerCleanup (s : SysState) : SysState :=
  { s with tickIntervalActive := false }

/-- `TimerManager.stop`. -/
def timerStop (s : SysState) : SysState :=
  let s := timerCleanup s
  { s with timerMode := none, remainingTime := 0 }

/-- `GameEngine.notifyStateChange`: builds the event delivered to every
listener; when no explicit remaining time is passed it reads
`timerManager.getRemainingTime()` (the current `remainingTime`). -/
def notifyStateChange (s : SysState) (previousState : GameState) (now : Nat)
    (remainingTime? : Option Int) : GameStateChangeEvent :=
  { previousState := previousState
    currentState := s.currentState
    timestamp := now
    remainingTime := remainingTime?.getD s.remainingTime }

/-- `GameEngine.changeState`: mutates the phase, then notifies listeners. -/
def changeState (s : SysState) (newState : GameState) (now : Nat) :
    SysState × GameStateChangeEvent :=
  let s' := { s with currentState := newState }
  (s', notifyStateChange s' s.currentState now none)

/-- `GameEngine.onTimerTick`: forwards the tick to listeners as a
state-change event carrying the current phase on both sides. -/
def engineOnTimerTick (s : SysState) (remainingTime : Int) (now : Nat) :
    GameStateChangeEvent :=
  notifyStateChange s s.currentState now (some remainingTime)

/-- `TimerManager.startTimer`: cleanup, record the mode, compute the
duration (consuming the `Math.random()` draw `r` of this call), arm the
tick interval, then emit the initial tick (which runs
`GameEngine.onTimerTick`). -/
def timerStartTimer (s : SysState) (mode : TimerMode) (r : ℚ) (now : Nat) :
    SysState × List GameStateChangeEvent :=
  let s := timerCleanup s
  let dur := getDurationForMode s.config.timerConfig mode r
  let s := { s with timerMode := some mode, remainingTime := dur,
                    tickIntervalActive := true }
  (s, [engineOnTimerTick s dur now])

/-- `GameEngine.start`. -/
def engineStart (s : SysState) (now : Nat) (r : ℚ) :
    SysState × List GameStateChangeEvent :=
  if s.currentState ≠ GameState.Stopped then
    (s, [])
  else
    let s := { s with sessionStartTime := now }
    let (s, ev) := changeState s GameState.GreenLight now
    let (s, evs) := timerStartTimer s TimerMode.GreenLight r now
    (s, ev :: evs)

/-- `GameEngine.stop`. -/
def engineStop (s : SysState) (now : Nat) :
    SysState × List GameStateChangeEvent :=
  if s.currentState = GameState.Stopped then
    (s, [])
  else
    let s := timerStop s
    let (s, ev) := changeState s GameState.Stopped now
    ({ s with sessionStartTime := 0 }, [ev])

/-- `GameEngine.onTimerComplete`: ignored while Stopped; otherwise flips
the phase and starts the timer for the opposite mode. -/
def engineOnTimerComplete (s : SysState) (completedMode : TimerMode)
    (now : Nat) (r : ℚ) : SysState × List GameStateChangeEvent :=
  if s.currentState = GameState.Stopped then
    (s, [])
  else
    match completedMode with
    | TimerMode.GreenLight =>
        let (s, ev) := changeState s GameState.RedLight now
        let (s, evs) := timerStartTimer s TimerMode.RedLight r now
        (s, ev :: evs)
    | TimerMode.RedLight =>
        let (s, ev) := changeState s GameState.GreenLight now
        let (s, evs) := timerStartTimer s TimerMode.GreenLight r now
        (s, ev :: evs)

/-- `TimerManager.completeTimer`: remembers the current mode, cleans up,
then fires the completion callback (`GameEngine.onTimerComplete`). -/
def completeTimer (s : SysState) (now : Nat) (r : ℚ) :
    SysState × List GameStateChangeEvent :=
  let completedMode := s.timerMode
  let s := timerCleanup s
  match completedMode with
  | none => (s, [])
  | some m => engineOnTimerComplete s m now r

/-- One firing of the `setInterval` callback installed by `startTimer`:
decrement, tick-notify, and complete when the countdown reaches zero.
`r` is the `Math.random()` draw consumed if completion starts the next
phase's timer. -/
def tickFire (s : SysState) (now : Nat) (r : ℚ) :
    SysState × List GameStateChangeEvent :=
  if ¬ s.tickIntervalActive then
    (s, [])
  else
    let s := { s with remainingTime := s.remainingTime - 1 }
    let ev := engineOnTimerTick s s.remainingTime now
    if s.remainingTime ≤ 0 then
      let (s', evs) := completeTimer s now r
      (s', ev :: evs)
    else
      (s, [ev])

/-- `TimerManager.updateConfig` together with `GameEngine.updateConfig`:
the engine stores a copy of the new config and forwards the timer portion,
which `Object.assign`s every field of the held `TimerConfig`; the net
effect on the combined state is a wholesale config replacement. -/
def engineUpdateConfig (s : SysState) (newConfig : GameConfig) : SysState :=
  { s with config := newConfig }

/-- `GameEngine.isActive`. -/
def engineIsActive (s : SysState) : Bool :=
  s.currentState ≠ GameState.Stopped

/-- `GameEngine.isTypingAllowed`. -/
def isTypingAllowed (s : SysState) : Bool :=
  s.currentState = GameState.GreenLight ∨ s.currentState = GameState.Stopped

/-!
## InputMonitor (`game-panel-provider.ts`)
-/

/-- `RedLightViolationEvent` from `game-types.ts`. -/
structure RedLightViolationEvent where
  timestamp : Nat
  documentUri : String
  changeText : String
  actionTaken : String
deriving DecidableEq, Repr

/-- One entry of `event.contentChanges` of a text-document change. -/
structure ContentChange where
  text : String
  rangeStartLine : Nat
  rangeStartChar : Nat
deriving DecidableEq, Repr

/-- The slice of a `vscode.TextDocument` the monitor inspects: URI scheme,
URI path, full URI string and text length. -/
structure TextDocumentModel where
  scheme : String
  path : String
  uri : String
  textLength : Nat
deriving DecidableEq, Repr

/-- A `vscode.TextDocumentChangeEvent` as seen by the monitor. -/
structure TextDocumentChangeEvent where
  document : TextDocumentModel
  contentChanges : List ContentChange
deriving DecidableEq, Repr

/-- JavaScript `String.prototype.includes` on a non-empty needle:
substring containment. -/
def strIncludes (s sub : String) : Bool :=
  decide (List.IsInfix sub.data s.data)

/-- Mutable state of one `InputMonitor`; `redLightStartTime = 0` encodes
"no red light start time recorded", `gracePeriod` is in seconds. -/
structure MonitorState where
  isMonitoring : Bool
  redLightStartTime : Nat
  gracePeriod : ℚ
deriving DecidableEq, Repr

/-- The listener `InputMonitor.setupGameStateListener` registers on the
engine: on every `GameStateChangeEvent` whose `currentState` is red it
stores `Date.now()` (passed here as `now`). -/
def monitorOnStateChange (m : MonitorState) (event : GameStateChangeEvent)
    (now : Nat) : MonitorState :=
  if event.currentState = GameState.RedLight then
    { m with redLightStartTime := now }
  else
    m

/-- `InputMonitor.isWithinGracePeriod`: milliseconds since the recorded
red-light start divided by 1000, compared against the grace period. -/
def isWithinGracePeriod (m : MonitorState) (now : Nat) : Bool :=
  if m.redLightStartTime = 0 then
    false
  else
    ((now : ℚ) - (m.redLightStartTime : ℚ)) / 1000 ≤ m.gracePeriod

/-- `InputMonitor.shouldMonitorDocument`. -/
def shouldMonitorDocument (d : TextDocumentModel) : Bool :=
  if d.scheme ≠ "file" ∧ d.scheme ≠ "untitled" then
    false
  else if strIncludes d.path "extension-output" ∨
      strIncludes d.path "debug-console" then
    false
  else if d.textLength > 1000000 then
    false
  else
    true

/-- `InputMonitor.extractChangeText`. -/
def extractChangeText (event : TextDocumentChangeEvent) : String :=
  if event.contentChanges.length = 0 then
    "Unknown change"
  else
    String.intercalate ", " (event.contentChanges.map fun change =>
      if change.text.length > 0 then
        "Added: \x22" ++ change.text ++ "\x22"
      else
        "Deleted text at range " ++ toString change.rangeStartLine ++ ":" ++
          toString change.rangeStartChar)

/-- `InputMonitor.handleRedLightViolation`: builds the violation event and
notifies every violation listener once (the undo attempt is a logged
no-op). -/
def handleRedLightViolation (engine : SysState)
    (event : TextDocumentChangeEvent) (now : Nat) : RedLightViolationEvent :=
  { timestamp := now
    documentUri := event.document.uri
    changeText := extractChangeText event
    actionTaken := engine.config.redLightAction }

/-- `InputMonitor.onTextDocumentChange`: the list of violation events the
monitor delivers for one text-document change, in order. -/
def onTextDocumentChange (m : MonitorState) (engine : SysState)
    (event : TextDocumentChangeEvent) (now : Nat) :
    List RedLightViolationEvent :=
  if ¬ shouldMonitorDocument event.document then
    []
  else if ¬ m.isMonitoring ∨ ¬ engineIsActive engine then
    []
  else if engine.currentState = GameState.RedLight then
    if isWithinGracePeriod m now then
      []
    else
      [handleRedLightViolation engine event now]
  else
    []

/-!
## SettingsManager validation (`validateSettingsObject`)
-/

/-- `RandomTimingConfig` from `settings-types.ts`. -/
structure RandomTimingConfig where
  maxTime : ℚ
  minTime : ℚ
deriving DecidableEq, Repr

/-- `SoundConfig` from `settings-types.ts`. -/
structure SoundConfig where
  volume : ℚ
  redLightSound : Bool
  greenLightSound : Bool
  violationSound : Bool
  gameStartSound : Bool
deriving DecidableEq, Repr

/-- `ExtensionSettings` from `settings-types.ts`; `redLightAction` is the
raw string. -/
structure ExtensionSettings where
  redLightDuration : ℚ
  greenLightDuration : ℚ
  gracePeriod : ℚ
  showTimer : Bool
  useRandomTiming : Bool
  randomTiming : RandomTimingConfig
  redLightAction : String
  enableSounds : Bool
  soundSettings : SoundConfig
deriving DecidableEq, Repr

/-- `SettingsValidationResult` from `settings-types.ts`. -/
structure SettingsValidationResult where
  isValid : Bool
  errors : List String
  warnings : List String
deriving DecidableEq, Repr

/-- A conditional `errors.push(msg)` of the source, as the list it appends. -/
def pushIf (c : Prop) [Decidable c] (msg : String) : List String :=
  if c then [msg] else []

/-- `SettingsManager.validateSettingsObject`: the error list, in the order
the source pushes the messages. -/
def validationErrors (s : ExtensionSettings) : List String :=
  pushIf (s.redLightDuration < 1 ∨ s.redLightDuration > 60)
    "Red light duration must be between 1 and 60 seconds" ++
  pushIf (s.greenLightDuration < 1 ∨ s.greenLightDuration > 60)
    "Green light duration must be between 1 and 60 seconds" ++
  (if s.useRandomTiming then
    pushIf (s.randomTiming.minTime < 1 ∨ s.randomTiming.minTime > 60)
      "Minimum random time must be between 1 and 60 seconds" ++
    pushIf (s.randomTiming.maxTime < 2 ∨ s.randomTiming.maxTime > 120)
      "Maximum random time must be between 2 and 120 seconds" ++
    pushIf (s.randomTiming.minTime ≥ s.randomTiming.maxTime)
      "Minimum random time must be less than maximum random time"
  else []) ++
  pushIf (¬ (s.redLightAction = "close" ∨ s.redLightAction = "warn"))
    ("Invalid red light action: " ++ s.redLightAction) ++
  (if s.enableSounds then
    pushIf (s.soundSettings.volume < 0 ∨ s.soundSettings.volume > 1)
      "Sound volume must be between 0.0 and 1.0"
  else [])

/-- `SettingsManager.validateSettingsObject`: the warning list, in push
order. -/
def validationWarnings (s : ExtensionSettings) : List String :=
  pushIf (s.redLightAction = "close")
    "Close action will terminate VSCode when typing during red light" ++
  pushIf (s.redLightDuration < 3)
    "Very short red light duration may be difficult to react to" ++
  pushIf (s.greenLightDuration < 5)
    "Very short green light duration may not provide enough typing time"

/-- `SettingsManager.validateSettingsObject`. -/
def validateSettingsObject (s : ExtensionSettings) : SettingsValidationResult :=
  { isValid := (validationErrors s).isEmpty
    errors := validationErrors s
    warnings := validationWarnings s }

/-!
## Concrete sample states (used by witnesses and counterexamples)
-/

/-- The spec's scenario config: red 5s, green 10s, fixed timing,
grace 0.5s, `warn` action. -/
def sampleTimerConfig : TimerConfig :=
  { redLightDuration := 5, greenLightDuration := 10, useRandomTiming := false,
    maxRandomTime := 15, minRandomTime := 3 }

/-- Sample `GameConfig` around `sampleTimerConfig`. -/
def sampleConfig : GameConfig :=
  { timerConfig := sampleTimerConfig, redLightAction := "warn",
    gracePeriod := 1/2, showTimer := true, enableSounds := false }

/-- A freshly constructed (stopped) engine. -/
def stoppedState : SysState :=
  { currentState := GameState.Stopped, sessionStartTime := 0,
    config := sampleConfig, timerMode := none, remainingTime := 0,
    tickIntervalActive := false }

/-- An engine mid Red phase. -/
def redState : SysState :=
  { currentState := GameState.RedLight, sessionStartTime := 1000,
    config := sampleConfig, timerMode := some TimerMode.RedLight,
    remainingTime := 5, tickIntervalActive := true }

/-- An engine mid Green phase. -/
def greenState : SysState :=
  { currentState := GameState.GreenLight, sessionStartTime := 1000,
    config := sampleConfig, timerMode := some TimerMode.GreenLight,
    remainingTime := 10, tickIntervalActive := true }

/-- A monitorable document. -/
def sampleDoc : TextDocumentModel :=
  { scheme := "file", path := "/workspace/a.ts",
    uri := "file:///workspace/a.ts", textLength := 10 }

/-- A one-character insertion into `sampleDoc`. -/
def sampleChangeEvent : TextDocumentChangeEvent :=
  { document := sampleDoc, contentChanges := [⟨"x", 0, 0⟩] }

/-!
## Theorems
-/

/-- C10: `isTypingAllowed` returns true exactly when the current phase is
Green or Stopped; in particular typing is reported as allowed while the
game is stopped. -/
theorem isTypingAllowed_iff_green_or_stopped (s : SysState) :
    isTypingAllowed s = true ↔
      (s.currentState = GameState.GreenLight ∨
        s.currentState = GameState.Stopped) := by
  simp [isTypingAllowed]

/-- C7: a timer-completion callback arriving while the engine is Stopped is
ignored: the state is unchanged and no event is emitted. -/
theorem timerComplete_ignored_when_stopped (s : SysState) (mode : TimerMode)
    (now : Nat) (r : ℚ) (h : s.currentState = GameState.Stopped) :
    engineOnTimerComplete s mode now r = (s, []) := by
  simp [engineOnTimerComplete, h]

/-- Witness for C7 at a concrete stopped engine. -/
theorem timerComplete_ignored_when_stopped_witness :
    engineOnTimerComplete stoppedState TimerMode.GreenLight 5000 0 =
      (stoppedState, []) :=
  timerComplete_ignored_when_stopped stoppedState TimerMode.GreenLight 5000 0
    rfl

/-- C8: `stop()` while already Stopped is a no-op with no side effects
(state, session timestamp and timer unchanged, no event), and `start()`
while active (Red or Green) is a no-op leaving everything unchanged. -/
theorem stop_and_start_idempotent (s : SysState) (now : Nat) (r : ℚ) :
    (s.currentState = GameState.Stopped → engineStop s now = (s, [])) ∧
    (s.currentState ≠ GameState.Stopped → engineStart s now r = (s, [])) := by
  constructor
  · intro h
    simp [engineStop, h]
  · intro h
    simp [engineStart, h]

/-- Witness for C8: second `stop()` on a stopped engine and `start()` on a
mid-Red engine are both no-ops. -/
theorem stop_and_start_idempotent_witness :
    engineStop stoppedState 7 = (stoppedState, []) ∧
    engineStart redState 7 0 = (redState, []) :=
  ⟨(stop_and_start_idempotent stoppedState 7 0).1 rfl,
   (stop_and_start_idempotent redState 7 0).2 (by decide)⟩

/-- C9: `updateConfig(newConfig)` replaces the stored configuration but
leaves the live session untouched (phase, timer mode, remaining seconds,
session start), and the new durations are what the next `startTimer`
computes its duration from. -/
theorem updateConfig_preserves_session (s : SysState) (nc : GameConfig)
    (mode : TimerMode) (r : ℚ) (now : Nat) :
    (engineUpdateConfig s nc).currentState = s.currentState ∧
    (engineUpdateConfig s nc).timerMode = s.timerMode ∧
    (engineUpdateConfig s nc).remainingTime = s.remainingTime ∧
    (engineUpdateConfig s nc).sessionStartTime = s.sessionStartTime ∧
    (engineUpdateConfig s nc).config = nc ∧
    (timerStartTimer (engineUpdateConfig s nc) mode r now).1.remainingTime =
      getDurationForMode nc.timerConfig mode r := by
  refine ⟨rfl, rfl, rfl, rfl, rfl, ?_⟩
  simp [timerStartTimer, engineUpdateConfig, timerCleanup]

/-- The grace-anchor state the monitor holds right after Red began at
t = 1000 ms with grace 0.5 s. -/
def monitorAfterRedStart : MonitorState :=
  { isMonitoring := true, redLightStartTime := 1000, gracePeriod := 1/2 }

/-- The tick event the engine emits one second into the Red phase. -/
def redTickEvent : GameStateChangeEvent :=
  { previousState := GameState.RedLight, currentState := GameState.RedLight,
    timestamp := 2000, remainingTime := 4 }

/-- The stop event the engine emits when stopped out of Red. -/
def redStopEvent : GameStateChangeEvent :=
  { previousState := GameState.RedLight, currentState := GameState.Stopped,
    timestamp := 3000, remainingTime := 0 }

/-- C2 (code bug): the engine's per-second tick during Red reaches the
monitor's state listener as an event with `currentState = RedLight`, and
the listener then *overwrites* `redLightStartTime` with the current time
(2000) instead of keeping the anchor (1000); and on the stop event the
listener leaves the stale anchor in place instead of resetting it to
unset. -/
theorem graceAnchor_overwritten_on_tick :
    engineOnTimerTick redState 4 2000 = redTickEvent ∧
    (monitorOnStateChange monitorAfterRedStart redTickEvent 2000
      ).redLightStartTime = 2000 ∧
    (monitorOnStateChange monitorAfterRedStart redStopEvent 3000
      ).redLightStartTime = 1000 := by
  refine ⟨rfl, rfl, rfl⟩

/-- C4: while the engine's phase is Green, an incoming text-document
change produces no violation events, regardless of the edits it carries. -/
theorem no_violation_during_green (m : MonitorState) (engine : SysState)
    (event : TextDocumentChangeEvent) (now : Nat)
    (h : engine.currentState = GameState.GreenLight) :
    onTextDocumentChange m engine event now = [] := by
  simp [onTextDocumentChange, h]

/-- Witness for C4: a concrete edit during Green yields no violations. -/
theorem no_violation_during_green_witness :
    onTextDocumentChange ⟨true, 0, 1/2⟩ greenState sampleChangeEvent 2000 =
      [] :=
  no_violation_during_green ⟨true, 0, 1/2⟩ greenState sampleChangeEvent 2000
    rfl

/-- C3: for a monitored edit at time `t` (ms) while the phase is Red, the
monitor enabled, and the grace anchor set at `t0 ≠ 0` with grace period
`g` seconds: if `(t − t0)/1000 ≤ g` no violation event is emitted, and if
`(t − t0)/1000 > g` exactly one violation event is emitted for the edit. -/
theorem grace_period_single_violation (m : MonitorState) (engine : SysState)
    (event : TextDocumentChangeEvent) (t : Nat)
    (hdoc : shouldMonitorDocument event.document = true)
    (hmon : m.isMonitoring = true)
    (hred : engine.currentState = GameState.RedLight)
    (hanchor : m.redLightStartTime ≠ 0) :
    (((t : ℚ) - (m.redLightStartTime : ℚ)) / 1000 ≤ m.gracePeriod →
      onTextDocumentChange m engine event t = []) ∧
    (m.gracePeriod < ((t : ℚ) - (m.redLightStartTime : ℚ)) / 1000 →
      onTextDocumentChange m engine event t =
        [handleRedLightViolation engine event t]) := by
  have hact : engineIsActive engine = true := by
    simp [engineIsActive, hred]
  constructor
  · intro hle
    simp [onTextDocumentChange, hdoc, hmon, hact, hred, isWithinGracePeriod,
      hanchor, hle]
  · intro hgt
    simp [onTextDocumentChange, hdoc, hmon, hact, hred, isWithinGracePeriod,
      hanchor, not_le.mpr hgt]

/-- Witness for C3: grace 0.5 s, Red began at t0 = 1000 ms; an edit at
1300 ms (0.3 s in) yields no violation, an edit at 1600 ms (0.6 s in)
yields exactly one. -/
theorem grace_period_single_violation_witness :
    onTextDocumentChange monitorAfterRedStart redState sampleChangeEvent
      1300 = [] ∧
    onTextDocumentChange monitorAfterRedStart redState sampleChangeEvent
      1600 = [handleRedLightViolation redState sampleChangeEvent 1600] :=
  ⟨(grace_period_single_violation monitorAfterRedStart redState
      sampleChangeEvent 1300 (by decide) rfl rfl (by decide)).1
      (by norm_num [monitorAfterRedStart]),
   (grace_period_single_violation monitorAfterRedStart redState
      sampleChangeEvent 1600 (by decide) rfl rfl (by decide)).2
      (by norm_num [monitorAfterRedStart])⟩

/-- C6: with `useRandomTiming` on, every draw `r ∈ [0,1)` yields the
integer duration `⌊r·(max−min+1)⌋ + min`, which lies in
`[minRandomTime, maxRandomTime]` inclusive; the duration is recomputed by
every `startTimer` call from that call's draw; and in the degenerate case
`min = max = 3` it always equals 3. -/
theorem random_duration_in_range (c : TimerConfig) (mode : TimerMode) (r : ℚ)
    (hminmax : c.minRandomTime ≤ c.maxRandomTime) (h0 : 0 ≤ r) (h1 : r < 1) :
    (c.minRandomTime ≤ getRandomDuration c r ∧
      getRandomDuration c r ≤ c.maxRandomTime) ∧
    (c.useRandomTiming = true →
      getDurationForMode c mode r = getRandomDuration c r) ∧
    (∀ (s : SysState) (now : Nat),
      (timerStartTimer s mode r now).1.remainingTime =
        getDurationForMode s.config.timerConfig mode r) ∧
    (c.minRandomTime = 3 → c.maxRandomTime = 3 →
      getRandomDuration c r = 3) := by
  have hq : (0 : ℚ) <
      (c.maxRandomTime : ℚ) - (c.minRandomTime : ℚ) + 1 := by
    have : (c.minRandomTime : ℚ) ≤ (c.maxRandomTime : ℚ) := by
      exact_mod_cast hminmax
    linarith
  refine ⟨⟨?_, ?_⟩, ?_, ?_, ?_⟩
  · -- lower bound: the floor of a nonnegative number is nonnegative
    have : (0 : ℤ) ≤
        ⌊r * ((c.maxRandomTime : ℚ) - (c.minRandomTime : ℚ) + 1)⌋ :=
      Int.floor_nonneg.mpr (mul_nonneg h0 (le_of_lt hq))
    unfold getRandomDuration
    omega
  · -- upper bound: r < 1 pushes the floor strictly below max − min + 1
    have hlt : r * ((c.maxRandomTime : ℚ) - (c.minRandomTime : ℚ) + 1) <
        ((c.maxRandomTime - c.minRandomTime + 1 : ℤ) : ℚ) := by
      push_cast
      nlinarith
    have : ⌊r * ((c.maxRandomTime : ℚ) - (c.minRandomTime : ℚ) + 1)⌋ <
        c.maxRandomTime - c.minRandomTime + 1 :=
      Int.floor_lt.mpr hlt
    unfold getRandomDuration
    omega
  · intro hrand
    simp [getDurationForMode, hrand]
  · intro s now
    simp [timerStartTimer, timerCleanup]
  · intro hmin hmax
    have hfr : ⌊r⌋ = 0 :=
      Int.floor_eq_zero_iff.mpr (Set.mem_Ico.mpr ⟨h0, h1⟩)
    have : ⌊r * ((c.maxRandomTime : ℚ) - (c.minRandomTime : ℚ) + 1)⌋ = 0 := by
      rw [hmin, hmax]
      norm_num [hfr]
    unfold getRandomDuration
    omega

/-- C1 counterexample: with the spec's scenario config
(`red:5, green:10, random:false`), `start()` on a fresh stopped engine
emits as its *immediate* StateChangeEvent
`{prev: Stopped, curr: Green, remaining: 0}` — not `remaining: 10` as the
claim states; the new duration 10 only arrives in the second event, the
initial tick emitted after the timer is started. -/
theorem start_event_order_counterexample :
    ((engineStart stoppedState 1000 0).2.map fun e =>
        (e.previousState, e.currentState, e.remainingTime)) =
      [(GameState.Stopped, GameState.GreenLight, 0),
       (GameState.GreenLight, GameState.GreenLight, 10)] ∧
    ¬ (((engineStart stoppedState 1000 0).2.map fun e =>
        e.remainingTime).head? = some 10) := by
  refine ⟨rfl, by decide⟩

/-- C1 amended: in every phase transition — fixed or random timing — the
code mutates the phase and emits the StateChangeEvent *before* starting
the new timer; the transition event therefore carries the previous timer's
remaining time (the stale value, 0 after a stop or a completed countdown),
and the freshly-started timer's remaining time (the duration
`getDurationForMode` computes from this call's draw `r`) is delivered in a
second event — the initial tick emitted by `startTimer`. Shown for
`start()` from Stopped and for both timer completions. -/
theorem transition_event_precedes_new_timer (s : SysState) (now : Nat)
    (r : ℚ) (hs : s.currentState = GameState.Stopped) :
    (engineStart s now r).2 =
      [{ previousState := GameState.Stopped,
         currentState := GameState.GreenLight,
         timestamp := now, remainingTime := s.remainingTime },
       { previousState := GameState.GreenLight,
         currentState := GameState.GreenLight,
         timestamp := now,
         remainingTime :=
           getDurationForMode s.config.timerConfig TimerMode.GreenLight
             r }] ∧
    (engineStart s now r).1.remainingTime =
      getDurationForMode s.config.timerConfig TimerMode.GreenLight r ∧
    (∀ (s2 : SysState),
      s2.currentState = GameState.GreenLight →
      (engineOnTimerComplete s2 TimerMode.GreenLight now r).2 =
        [{ previousState := GameState.GreenLight,
           currentState := GameState.RedLight,
           timestamp := now, remainingTime := s2.remainingTime },
         { previousState := GameState.RedLight,
           currentState := GameState.RedLight,
           timestamp := now,
           remainingTime :=
             getDurationForMode s2.config.timerConfig TimerMode.RedLight
               r }]) ∧
    (∀ (s3 : SysState),
      s3.currentState = GameState.RedLight →
      (engineOnTimerComplete s3 TimerMode.RedLight now r).2 =
        [{ previousState := GameState.RedLight,
           currentState := GameState.GreenLight,
           timestamp := now, remainingTime := s3.remainingTime },
         { previousState := GameState.GreenLight,
           currentState := GameState.GreenLight,
           timestamp := now,
           remainingTime :=
             getDurationForMode s3.config.timerConfig TimerMode.GreenLight
               r }]) := by
  refine ⟨?_, ?_, ?_, ?_⟩
  · simp [engineStart, hs, changeState, notifyStateChange, timerStartTimer,
      timerCleanup, engineOnTimerTick]
  · simp [engineStart, hs, changeState, notifyStateChange, timerStartTimer,
      timerCleanup, engineOnTimerTick]
  · intro s2 h2
    simp [engineOnTimerComplete, h2, changeState, notifyStateChange,
      timerStartTimer, timerCleanup, engineOnTimerTick]
  · intro s3 h3
    simp [engineOnTimerComplete, h3, changeState, notifyStateChange,
      timerStartTimer, timerCleanup, engineOnTimerTick]

/-- Witness for the C1 amended theorem at the scenario config. -/
theorem transition_event_precedes_new_timer_witness :
    (engineStart stoppedState 1000 0).2 =
      [{ previousState := GameState.Stopped,
         currentState := GameState.GreenLight,
         timestamp := 1000, remainingTime := stoppedState.remainingTime },
       { previousState := GameState.GreenLight,
         currentState := GameState.GreenLight,
         timestamp := 1000,
         remainingTime :=
           getDurationForMode stoppedState.config.timerConfig
             TimerMode.GreenLight 0 }] :=
  (transition_event_precedes_new_timer stoppedState 1000 0 rfl).1

/-- Settings identical to the defaults except for a grace period of 10
seconds — outside the spec's 0–5 s range. -/
def outOfRangeGraceSettings : ExtensionSettings :=
  { redLightDuration := 5, greenLightDuration := 10, gracePeriod := 10,
    showTimer := true, useRandomTiming := false,
    randomTiming := { maxTime := 15, minTime := 3 },
    redLightAction := "warn", enableSounds := false,
    soundSettings := { volume := 1/2, redLightSound := true,
                       greenLightSound := true, violationSound := true,
                       gameStartSound := true } }

/-- C5 counterexample: for settings whose grace period is 10 s (outside
the claimed 0–5 s range) and which are otherwise valid, the validation
routine reports *no* error and declares the settings valid — it performs
no grace-period check at all. -/
theorem validation_ignores_grace_counterexample :
    outOfRangeGraceSettings.gracePeriod = 10 ∧
    validateSettingsObject outOfRangeGraceSettings =
      { isValid := true, errors := [], warnings := [] } := by
  refine ⟨rfl, ?_⟩
  rfl

/-- `pushIf c msg` is empty exactly when `c` fails. -/
theorem pushIf_eq_nil (c : Prop) [Decidable c] (msg : String) :
    pushIf c msg = [] ↔ ¬ c := by
  by_cases h : c <;> simp [pushIf, h]

/-- C5 amended: `validateSettingsObject` returns a structured result whose
`isValid` flag is true iff the error list is empty; the error list is
empty iff the duration bounds hold, the random bounds hold whenever random
timing is enabled, the action string is recognized, and the volume is in
range whenever sounds are enabled — and the result is entirely independent
of the grace period, which is never validated. -/
theorem validation_characterization (s : ExtensionSettings) :
    ((validateSettingsObject s).isValid = true ↔
      (validateSettingsObject s).errors = []) ∧
    ((validateSettingsObject s).errors = [] ↔
      (1 ≤ s.redLightDuration ∧ s.redLightDuration ≤ 60) ∧
      (1 ≤ s.greenLightDuration ∧ s.greenLightDuration ≤ 60) ∧
      (s.useRandomTiming = true →
        (1 ≤ s.randomTiming.minTime ∧ s.randomTiming.minTime ≤ 60) ∧
        (2 ≤ s.randomTiming.maxTime ∧ s.randomTiming.maxTime ≤ 120) ∧
        s.randomTiming.minTime < s.randomTiming.maxTime) ∧
      (s.redLightAction = "close" ∨ s.redLightAction = "warn") ∧
      (s.enableSounds = true →
        0 ≤ s.soundSettings.volume ∧ s.soundSettings.volume ≤ 1)) ∧
    (∀ g : ℚ, validateSettingsObject { s with gracePeriod := g } =
      validateSettingsObject s) := by
  refine ⟨by simp [validateSettingsObject, List.isEmpty_iff], ?_, ?_⟩
  · cases hu : s.useRandomTiming <;> cases he : s.enableSounds <;>
      simp [validateSettingsObject, validationErrors, hu, he,
        pushIf_eq_nil, not_or, not_lt, not_le] <;>
      tauto
  · intro g
    simp [validateSettingsObject, validationErrors, validationWarnings]

/-- The spec's degenerate random-timing config: `min = max = 3`. -/
def degenerateRandomConfig : TimerConfig :=
  { redLightDuration := 5, greenLightDuration := 10, useRandomTiming := true,
    maxRandomTime := 3, minRandomTime := 3 }

/-- Witness for C6 at the degenerate config with draw `r = 1/2`. -/
theorem random_duration_in_range_witness :
    3 ≤ getRandomDuration degenerateRandomConfig (1/2) ∧
      getRandomDuration degenerateRandomConfig (1/2) ≤ 3 :=
  (random_duration_in_range degenerateRandomConfig TimerMode.GreenLight
    (1/2) (by decide) (by norm_num) (by norm_num)).1
